import Mathlib

/-!
Verification of the deep-search / deep-research multi-agent pipeline.

This file gives a shallow embedding, in Lean 4, of the orchestration core of
the repository (planner agents, decomposition agent, collector agents,
synthesizer agents, and the HTTP handler's synthesis step), and proves or
refutes the frozen specification claims about it.

Conventions of the embedding:
* Python dicts with a fixed key set become Lean structures; optional keys
  (accessed with dict.get) become Option-typed fields.
* External fallible capabilities (the language-model completion call, the
  network fetches of each collector) become explicit outcome parameters:
  an Except value or a small inductive of outcomes.  A Python function that
  catches all exceptions internally becomes a total Lean function; a Python
  function that can let an exception escape returns Except.
* The English prompt templates sent to the language model are abbreviated:
  their text never influences control flow, only the (opaque) model reply.
-/

set_option autoImplicit false

namespace ResearchAgent

/-- Research strategy dictionary returned by analyze_query
(planner_agent.py and planner_agent_deep_research.py): per-collector
enablement flags plus complexity/recency/reasoning tags. -/
structure Strategy where
  use_arxiv : Bool
  use_youtube : Bool
  use_webpage : Bool
  complexity : String
  recency : String
  reasoning : String
deriving Repr, DecidableEq

/-- A collected source dict.  Collectors populate different key subsets
(arxiv: title/summary/link, youtube: videoId/title/description/channelTitle/
publishTime/url/transcript, webpage: title/content/link); every record
carries source_type.  Absent keys are none. -/
structure SourceRecord where
  source_type : Option String := none
  title : Option String := none
  summary : Option String := none
  link : Option String := none
  videoId : Option String := none
  description : Option String := none
  channelTitle : Option String := none
  publishTime : Option String := none
  url : Option String := none
  transcript : Option String := none
  content : Option String := none
deriving Repr, DecidableEq

/-- active_agents = sum([strategy['use_arxiv'], strategy['use_youtube'],
strategy['use_webpage']]) (planner_agent.py line 103,
planner_agent_deep_research.py line 97). -/
def activeAgents (s : Strategy) : Nat :=
  (if s.use_arxiv then 1 else 0) + (if s.use_youtube then 1 else 0) +
    (if s.use_webpage then 1 else 0)

/-- The in-place mutation of the strategy dict performed by
execute_research_plan when no agent is active (planner_agent.py lines
104-107): strategy['use_arxiv'] = True; strategy['use_youtube'] = True. -/
def normalizeStrategy (s : Strategy) : Strategy :=
  if activeAgents s = 0 then { s with use_arxiv := true, use_youtube := true }
  else s

/-- The active_agents local variable after the zero-agent default
(planner_agent.py lines 103-105): reset to 2 when the sum was 0. -/
def effectiveActiveAgents (s : Strategy) : Nat :=
  if activeAgents s = 0 then 2 else activeAgents s

/-- sources_per_agent = max(1, max_sources // active_agents)
(planner_agent.py line 109, planner_agent_deep_research.py line 103). -/
def sourcesPerAgent (maxSources : Nat) (s : Strategy) : Nat :=
  max 1 (maxSources / effectiveActiveAgents s)

/-- The list of per-collector quotas actually passed as max_results to the
enabled collectors by execute_research_plan, in collector-priority order
(paper, video, webpage).  Every enabled collector receives the same
sources_per_agent value; the remainder of the integer division is dropped. -/
def perCollectorQuota (maxSources : Nat) (s : Strategy) : List Nat :=
  let s' := normalizeStrategy s
  (if s'.use_arxiv then [sourcesPerAgent maxSources s] else []) ++
    (if s'.use_youtube then [sourcesPerAgent maxSources s] else []) ++
      (if s'.use_webpage then [sourcesPerAgent maxSources s] else [])

example :
    perCollectorQuota 5
      { use_arxiv := true, use_youtube := true, use_webpage := false,
        complexity := "medium", recency := "medium", reasoning := "" } = [2, 2] := by
  decide

example :
    perCollectorQuota 4
      { use_arxiv := true, use_youtube := true, use_webpage := false,
        complexity := "medium", recency := "medium", reasoning := "" } = [2, 2] := by
  decide

/-- A concrete strategy with exactly the paper and video collectors
enabled, as produced e.g. by the default analysis path with no URL. -/
def strategyPaperVideo : Strategy :=
  { use_arxiv := true, use_youtube := true, use_webpage := false,
    complexity := "medium", recency := "medium",
    reasoning := "Default comprehensive research approach" }

/-! ## String helpers

Structural-recursion counterparts of the Python string operations used by
the agents (split, strip, lower, split-on-first-colon).  They are defined
over the character list of the string so that concrete instances reduce
inside the kernel. -/

/-- The ASCII whitespace characters stripped by str.strip(). -/
def pyIsSpace (c : Char) : Bool :=
  c = ' ' || c = '\t' || c = '\n' || c = '\r' || c = '\x0b' || c = '\x0c'

/-- str.strip(): drop leading and trailing whitespace. -/
def pyStrip (s : String) : String :=
  String.mk (((s.data.dropWhile pyIsSpace).reverse.dropWhile pyIsSpace).reverse)

/-- str.lower() (ASCII letters, which is all the parsed keys use). -/
def pyLower (s : String) : String :=
  String.mk (s.data.map Char.toLower)

/-- str.split(sep) on a single-character separator. -/
def splitOnCharAux (sep : Char) : List Char → List Char → List (List Char)
  | [], acc => [acc.reverse]
  | c :: cs, acc =>
      if c = sep then acc.reverse :: splitOnCharAux sep cs []
      else splitOnCharAux sep cs (c :: acc)

/-- str.split(sep) on a single-character separator, e.g. text.split('\n'). -/
def splitOnChar (sep : Char) (s : String) : List String :=
  (splitOnCharAux sep s.data []).map String.mk

/-- str.split(sep, 1): None when the separator is absent (covering the
Python membership test), otherwise the parts before and after the first
occurrence. -/
def breakOnFirst (sep : Char) : List Char → Option (List Char × List Char)
  | [] => none
  | c :: cs =>
      if c = sep then some ([], cs)
      else (breakOnFirst sep cs).map (fun p => (c :: p.1, p.2))

/-! ## StrategyAnalyzer: analyze_query -/

/-- The key/value parse loop of analyze_query (planner_agent.py lines
69-74): for each line of the reply containing a colon, split on the first
colon, lowercase and strip both parts, and record the pair.  Later lines
with the same key overwrite earlier ones, which the assoc list captures by
keeping insertion order and looking up the last occurrence. -/
def parseAnalysisLines (text : String) : List (String × String) :=
  ((splitOnCharAux '\n' text.data []).foldl
    (fun acc line =>
      match breakOnFirst ':' line with
      | none => acc
      | some (k, v) =>
          acc ++ [(pyLower (pyStrip (String.mk k)), pyLower (pyStrip (String.mk v)))])
    [])

/-- analysis.get(key, dflt): the value of the last line that set the key,
or the default. -/
def getKV (kvs : List (String × String)) (key dflt : String) : String :=
  match kvs.reverse.find? (fun p => p.1 == key) with
  | some p => p.2
  | none => dflt

/-- analyze_query (planner_agent.py lines 28-94, planner_agent_deep_research.py
lines 30-88).  The language-model call is the modelReply parameter: some text
is a successful completion (with a None response.text already mapped to "" by
the caller side of the embedding), none is a raised exception, which the
except branch converts to the default strategy. -/
def analyze_query (modelReply : Option String) (webpage_url : String) : Strategy :=
  match modelReply with
  | some text =>
      let analysis := parseAnalysisLines (pyStrip text)
      { use_arxiv := getKV analysis "arxiv" "yes" == "yes"
        use_youtube := getKV analysis "youtube" "yes" == "yes"
        use_webpage := getKV analysis "webpage" "yes" == "yes" && webpage_url != ""
        complexity := getKV analysis "complexity" "medium"
        recency := getKV analysis "recency" "medium"
        reasoning := getKV analysis "reasoning" "Standard research approach" }
  | none =>
      { use_arxiv := true
        use_youtube := true
        use_webpage := webpage_url != ""
        complexity := "medium"
        recency := "medium"
        reasoning := "Default comprehensive research approach" }

example :
    analyze_query (some "ArXiv: no\nYouTube: no\nWebpage: no\nComplexity: simple\nRecency: low\nReasoning: x") "" =
      { use_arxiv := false, use_youtube := false, use_webpage := false,
        complexity := "simple", recency := "low", reasoning := "x" } := by
  decide

example : analyze_query none "" = strategyPaperVideo := by decide

/-! ## Orchestrator: execute_research_plan and the deep-research loop -/

/-- The three collector runs as seen from the planner: each returns the
sources list of the run result (run(...).get('sources', [])).  A collector
failure is caught by the planner's per-collector try/except and contributes
the empty list, so an oracle returning a list covers both outcomes. -/
structure Collectors where
  arxivRun : String → Nat → Option String → Option String → List SourceRecord
  youtubeRun : String → Nat → Nat → List SourceRecord
  webpageRun : String → String → List SourceRecord

/-- Outcome of one execute_research_plan call in deep-research mode: the
strategy dict after the call (it is mutated in place when no agent was
active), the sources gathered, and whether the webpage collector's run was
invoked during the call. -/
structure ExecOutcome where
  strategy : Strategy
  sources : List SourceRecord
  webpageCalled : Bool
deriving Repr

/-- execute_research_plan (planner_agent_deep_research.py lines 90-144).
The webpage collector fires only when use_webpage is set, the URL is
non-empty, and the sub-question equals kwargs.get('first_sub_question')
(line 134); comparing a string with an absent key (None) is False. -/
def execute_research_plan (C : Collectors) (sub_question : String)
    (strategy : Strategy) (max_sources : Nat) (webpage_url : String)
    (first_sub_question : Option String) (date_from date_to : Option String)
    (transcript_limit : Nat) : ExecOutcome :=
  let strategy' := normalizeStrategy strategy
  let n := sourcesPerAgent max_sources strategy
  let arxivSources :=
    if strategy'.use_arxiv then C.arxivRun sub_question n date_from date_to else []
  let youtubeSources :=
    if strategy'.use_youtube then C.youtubeRun sub_question n transcript_limit else []
  let fireWebpage := strategy'.use_webpage && webpage_url != "" &&
    (match first_sub_question with
     | some f => sub_question == f
     | none => false)
  let webpageSources :=
    if fireWebpage then C.webpageRun sub_question webpage_url else []
  { strategy := strategy'
    sources := arxivSources ++ youtubeSources ++ webpageSources
    webpageCalled := fireWebpage }

/-- The sub-question loop of PlannerAgentDeepResearch.run (lines 163-176):
passes are numbered from 1; only pass 1 puts first_sub_question (set to its
own sub-question) into the kwargs; the strategy dict is shared across all
passes, so a mutation performed by one pass is observed by the next.
Returns the final strategy, all sources in sub-question order, and the
per-pass webpage-invocation flags. -/
def deepLoop (C : Collectors) (max_sources : Nat) (webpage_url : String)
    (date_from date_to : Option String) (transcript_limit : Nat) :
    List String → Nat → Strategy → Strategy × List SourceRecord × List Bool
  | [], _, strat => (strat, [], [])
  | q :: rest, i, strat =>
      let fsq := if i = 1 then some q else none
      let out := execute_research_plan C q strat max_sources webpage_url fsq
        date_from date_to transcript_limit
      let rec' := deepLoop C max_sources webpage_url date_from date_to
        transcript_limit rest (i + 1) out.strategy
      (rec'.1, out.sources ++ rec'.2.1, out.webpageCalled :: rec'.2.2)

/-! ## QuestionDecomposer: decompose_question -/

/-- Outcome of the language-model call and JSON extraction inside
decompose_question (decomposition_agent.py lines 46-68), at the granularity
of the branches the code distinguishes:
* modelError: generate_content raised (outer except, line 65);
* noJsonBraces: the reply has no opening brace, so json_start = -1 and the
  else branch is taken (line 63);
* jsonError: json.loads raised on the extracted slice (caught by the outer
  except), which also covers a reply with a brace but malformed JSON;
* jsonObj subQuestions: json.loads succeeded; the field is the value of the
  "sub_questions" key when present (none when the key is absent). -/
inductive DecomposeReply where
  | modelError
  | noJsonBraces
  | jsonError
  | jsonObj (subQuestions : Option (List String))
deriving Repr, DecidableEq

/-- decompose_question (decomposition_agent.py lines 19-68).  On success
the parsed list is returned untouched: result.get("sub_questions",
[user_question]) (line 60); every failure branch returns the one-element
list with the original question. -/
def decompose_question (reply : DecomposeReply) (user_question : String) :
    List String :=
  match reply with
  | .modelError => [user_question]
  | .noJsonBraces => [user_question]
  | .jsonError => [user_question]
  | .jsonObj none => [user_question]
  | .jsonObj (some l) => l

/-! ## Synthesizer boundary: synthesize -/

/-- The per-source loop body of synthesize (synthesizer_agent.py lines
27-41 and, identically, synthesizer_agent_deep_research.py lines 27-41):
for an arxiv or youtube record at 1-based input position i it produces the
context chunk and the source-list li entry; any other record (in
particular a webpage record) produces nothing, though it still consumes
its enumeration index. -/
def renderListed (i : Nat) (s : SourceRecord) : Option (String × String) :=
  if s.source_type = some "arxiv" then
    let title := s.title.getD "No Title"
    let info := s.summary.getD ""
    let link := s.link.getD "#"
    some ("Source [" ++ toString i ++ "]: Title: " ++ title ++ ". Summary: " ++
        info ++ "\n\n",
      "<li id=\"source-" ++ toString i ++ "\"><a href=\"" ++ link ++
        "\" target=\"_blank\" rel=\"noopener noreferrer\">" ++ title ++
        "</a></li>")
  else if s.source_type = some "youtube" then
    let title := s.title.getD "No Title"
    let info := s.transcript.getD "No transcript available."
    let link := s.url.getD "#"
    let channel := s.channelTitle.getD ""
    some ("Source [" ++ toString i ++ "]: Title: " ++ title ++ ". Channel: " ++
        channel ++ ". Transcript: " ++ info ++ "\n\n",
      "<li id=\"source-" ++ toString i ++ "\"><a href=\"" ++ link ++
        "\" target=\"_blank\" rel=\"noopener noreferrer\">" ++ title ++
        "</a> - " ++ channel ++ "</li>")
  else none

/-- The whole enumerate loop: context chunks and li entries of the listed
(arxiv/youtube) records, each rendered at its 1-based input position. -/
def sourceItems : Nat → List SourceRecord → List (String × String)
  | _, [] => []
  | i, s :: rest =>
      match renderListed i s with
      | some item => item :: sourceItems (i + 1) rest
      | none => sourceItems (i + 1) rest

/-- The context block fed into the synthesis prompt. -/
def contextOf (sources : List SourceRecord) : String :=
  String.join ((sourceItems 1 sources).map Prod.fst)

/-- The programmatically rendered source list appended to the report:
header, the li entries in input order, closing tag.  The flat synthesizer
uses the markdown header, the deep-research one an h2 header. -/
def sourceListHtml (header : String) (sources : List SourceRecord) : String :=
  header ++ String.join ((sourceItems 1 sources).map Prod.snd) ++ "</ol>"

/-- Header of the flat synthesizer's source list (synthesizer_agent.py
line 25). -/
def flatSourcesHeader : String := "\n\n## Sources\n<ol>"

/-- Header of the deep-research synthesizer's source list
(synthesizer_agent_deep_research.py line 25). -/
def deepSourcesHeader : String :=
  "\n\n<h2 id=\x27sources\x27>Sources</h2>\n<ol>"

/-- The synthesis prompt (synthesizer_agent.py lines 46-63); the long
English instruction template is abbreviated since only the embedded
question and context vary. -/
def synthesisPrompt (user_question context : String) : String :=
  "You are a meticulous research analyst." ++
    " Original User Question: " ++ user_question ++
    " Sources: " ++ context

/-- synthesize (synthesizer_agent.py lines 18-73), parameterised by the
source-list header so that the identical deep-research variant
(synthesizer_agent_deep_research.py lines 18-144) shares the definition.
The model call is the model parameter: ok text is a completion (None
response.text mapped to ""), error e is a raised exception, caught on line
72 and turned into the error string.  The second component counts the
language-model calls the function performed. -/
def synthesizeWith (header : String) (model : String → Except String String)
    (user_question : String) (all_sources : List SourceRecord) : String × Nat :=
  match all_sources with
  | [] => ("No relevant sources were found to answer your question.", 0)
  | _ =>
      let context := contextOf all_sources
      let html := sourceListHtml header all_sources
      match model (synthesisPrompt user_question context) with
      | .ok t => (pyStrip t ++ html, 1)
      | .error e => ("Error during synthesis: " ++ e, 1)

/-- SynthesizerAgent.synthesize (synthesizer_agent.py). -/
def synthesize (model : String → Except String String) (user_question : String)
    (all_sources : List SourceRecord) : String × Nat :=
  synthesizeWith flatSourcesHeader model user_question all_sources

/-- SynthesizerAgentDeepResearch.synthesize
(synthesizer_agent_deep_research.py). -/
def synthesizeDeep (model : String → Except String String)
    (user_question : String) (all_sources : List SourceRecord) : String × Nat :=
  synthesizeWith deepSourcesHeader model user_question all_sources

/-! ## Collector agents -/

/-- " ".join / "\n\n".join. -/
def joinWith (sep : String) : List String → String
  | [] => ""
  | [x] => x
  | x :: xs => x ++ sep ++ joinWith sep xs

/-- re.sub(r'\s+', ' ', text): collapse each maximal whitespace run into a
single space.  The Bool tracks whether the previous character was part of
a run already collapsed. -/
def collapseWsAux : Bool → List Char → List Char
  | _, [] => []
  | lastSpace, c :: cs =>
      if pyIsSpace c then
        if lastSpace then collapseWsAux true cs
        else ' ' :: collapseWsAux true cs
      else c :: collapseWsAux false cs

/-- ArxivAgent._clean_text (arxiv_agent.py lines 98-106): newlines and
carriage returns to spaces, double quotes to single quotes, whitespace
runs collapsed, then stripped. -/
def clean_text (t : String) : String :=
  if t = "" then ""
  else
    let cs := t.data.map (fun c => if c = '\n' || c = '\r' then ' ' else c)
    let cs := cs.map (fun c => if c = '\"' then Char.ofNat 39 else c)
    pyStrip (String.mk (collapseWsAux false cs))

/-- One Atom entry of the ArXiv reply as the parser sees it after XML
decoding: the text of the title, summary and id elements, none when the
element is missing (absent-or-falsy text is what line 86 of arxiv_agent.py
tests, with the empty string as the falsy text case). -/
structure ArxivEntry where
  title : Option String := none
  summary : Option String := none
  link : Option String := none
deriving Repr, DecidableEq

/-- Outcome of the ArXiv HTTP fetch plus XML decode, at the granularity of
the two try/except blocks of arxiv_agent.py: unreachable covers a raising
urlopen/read (line 69), xmlDecodeError a raising ET.fromstring (line 94),
entries the successfully decoded entry list. -/
inductive ArxivFetch where
  | unreachable
  | xmlDecodeError
  | entries (es : List ArxivEntry)
deriving Repr, DecidableEq

/-- ArxivAgent.search composed with _parse_arxiv_xml (arxiv_agent.py lines
43-96): both exception paths yield [], and an entry is kept only when
title, summary and id are all present with non-empty text. -/
def arxivSearch (fetch : ArxivFetch) : List SourceRecord :=
  match fetch with
  | .unreachable => []
  | .xmlDecodeError => []
  | .entries es =>
      es.filterMap (fun e =>
        match e.title, e.summary, e.link with
        | some t, some s, some l =>
            if t ≠ "" && s ≠ "" && l ≠ "" then
              some { source_type := some "arxiv", title := some (clean_text t),
                     summary := some (clean_text s), link := some (pyStrip l) }
            else none
        | _, _, _ => none)

/-- Return shape of BaseAgent.run (base_agent.py lines 95-101). -/
structure AgentRunResult where
  agent_name : String
  query : String
  user_question : String
  sources : List SourceRecord
  source_count : Nat
deriving Repr, DecidableEq

/-- BaseAgent.generate_search_query (base_agent.py lines 46-77) at the
granularity of its branches: some t is a successful model completion
(stripped on the gemini branch the cited agents use), none is a raised
model call, answered by the deterministic keyword fallback. -/
def keywordChar (c : Char) : Bool :=
  c.isAlphanum || c = Char.ofNat 39

/-- re.findall(r"[A-Za-z0-9']+", s): the maximal runs of word characters. -/
def wordsOfAux : List Char → List Char → List String
  | acc, [] => if acc = [] then [] else [String.mk acc.reverse]
  | acc, c :: cs =>
      if keywordChar c then wordsOfAux (c :: acc) cs
      else if acc = [] then wordsOfAux [] cs
      else String.mk acc.reverse :: wordsOfAux [] cs

/-- The non-model keyword-extraction fallback of generate_search_query
(base_agent.py lines 72-77): lowercase, tokenize, drop stopwords and short
words, keep the first six, join with spaces. -/
def keywordQuery (user_question : String) : String :=
  let stopwords := ["the", "a", "an", "of", "in", "on", "for", "and", "to",
    "with", "is", "are", "how", "what", "why", "who", "where"]
  let words := wordsOfAux [] (pyLower user_question).data
  let words := words.filter (fun w => ¬ stopwords.contains w && 2 < w.length)
  joinWith " " (words.take 6)

/-- generate_search_query: model reply or keyword fallback. -/
def generate_search_query (modelReply : Option String) (user_question : String) :
    String :=
  match modelReply with
  | some t => pyStrip t
  | none => keywordQuery user_question

/-- ArxivAgent.run = BaseAgent.run with ArxivAgent.search and the identity
process_sources (date filtering only alters the query sent to the external
API, which the fetch outcome already abstracts). -/
def arxivAgentRun (queryReply : Option String) (user_question : String)
    (fetch : ArxivFetch) : AgentRunResult :=
  let query := generate_search_query queryReply user_question
  let sources := arxivSearch fetch
  { agent_name := "ArXiv Agent", query := query, user_question := user_question,
    sources := sources, source_count := sources.length }

/-- One item of the YouTube search reply (youtube_agent.py lines 34-43),
after the external API's JSON decoding. -/
structure YoutubeItem where
  videoId : String
  title : String
  description : String
  channelTitle : String
  publishTime : Option String := none
deriving Repr, DecidableEq

/-- Outcome of the YouTube search call: unreachable covers a raising
request.execute() (caught on line 45 of youtube_agent.py), items the
decoded item list. -/
inductive YoutubeFetch where
  | unreachable
  | items (is : List YoutubeItem)
deriving Repr, DecidableEq

/-- YoutubeAgent.search (youtube_agent.py lines 17-47): the except branch
yields [], otherwise each item becomes a youtube record with the watch
URL derived from the video id. -/
def youtubeSearch (fetch : YoutubeFetch) : List SourceRecord :=
  match fetch with
  | .unreachable => []
  | .items is =>
      is.map (fun it =>
        { source_type := some "youtube", videoId := some it.videoId,
          title := some it.title, description := some it.description,
          channelTitle := some it.channelTitle, publishTime := it.publishTime,
          url := some ("https://www.youtube.com/watch?v=" ++ it.videoId) })

/-- YoutubeAgent._fetch_transcript (youtube_agent.py lines 58-71).  The
transcript API call is the segments parameter: none is any raised
exception (disabled/missing transcript included), some segs the fetched
segment texts.  Non-empty segment texts are stripped, joined with spaces,
and truncated to char_limit characters plus an ellipsis. -/
def fetch_transcript (segments : Option (List String)) (char_limit : Nat) :
    Option String :=
  match segments with
  | none => none
  | some segs =>
      let texts := (segs.filter (fun t => t ≠ "")).map pyStrip
      let joined := joinWith " " texts
      if char_limit < joined.length then
        some (String.mk (joined.data.take char_limit) ++ "...")
      else some joined

/-- YoutubeAgent.run = BaseAgent.run with YoutubeAgent.search and
process_sources, which adds a transcript to every video (youtube_agent.py
lines 49-56).  transcriptsOf maps a video id to its transcript segments
(none when the external transcript fetch raises). -/
def youtubeAgentRun (queryReply : Option String) (user_question : String)
    (fetch : YoutubeFetch) (transcriptsOf : String → Option (List String))
    (transcript_limit : Nat) : AgentRunResult :=
  let query := generate_search_query queryReply user_question
  let sources := (youtubeSearch fetch).map (fun v =>
    { v with transcript :=
        fetch_transcript (transcriptsOf (v.videoId.getD "")) transcript_limit })
  { agent_name := "YouTube Agent", query := query,
    user_question := user_question, sources := sources,
    source_count := sources.length }

/-! ## WebpageAgent -/

/-- Truthiness of an optional string kwarg: present and non-empty. -/
def optTruthy : Option String → Bool
  | some s => s ≠ ""
  | none => false

/-- Truthiness of an optional list kwarg: present and non-empty. -/
def optListTruthy : Option (List String) → Bool
  | some l => l ≠ []
  | none => false

/-- List-level startsWith, for the http url test of webpage_agent.py
line 33. -/
def listIsPrefixOfChars : List Char → List Char → Bool
  | [], _ => true
  | _ :: _, [] => false
  | p :: ps, c :: cs => p = c && listIsPrefixOfChars ps cs

def startsWithHttp (s : String) : Bool :=
  listIsPrefixOfChars "http://".data s.data ||
    listIsPrefixOfChars "https://".data s.data

/-- Outcome of one crawl4ai fetch as _fetch_one observes it
(webpage_agent.py lines 83-162):
* importError: the crawl4ai import raised (lines 87-95), answered with an
  inline placeholder record rather than a fetch;
* raised: asyncio.run(_fetch(url)) raised something other than the
  RuntimeError the fallback catches, which propagates out of the agent;
* fetched content title: a crawl result object; content is the first
  truthy attribute among the markdown/html candidates (none when every
  candidate is missing or falsy) and title the truthy metadata title, if
  any. -/
inductive CrawlOutcome where
  | importError (msg : String)
  | raised (msg : String)
  | fetched (content : Option String) (title : Option String)
deriving Repr, DecidableEq

/-- WebpageAgent._fetch_one (webpage_agent.py lines 83-162). -/
def fetch_one (crawl : String → CrawlOutcome) (url : String) :
    Except String SourceRecord :=
  match crawl url with
  | .importError e =>
      .ok { title := some url, content := some ("crawl4ai not available: " ++ e),
            link := some url, source_type := some "webpage" }
  | .raised e => .error e
  | .fetched content title =>
      let title' := match title with
        | some t => t
        | none => url
      let content' := match content with
        | some c => c
        | none => "No readable content extracted from: " ++ url
      .ok { title := some title', content := some content', link := some url,
            source_type := some "webpage" }

/-- WebpageAgent.search (webpage_agent.py lines 23-42): prefer the url /
urls kwargs, fall back to a query that looks like a URL, fetch each; an
exception from a fetch propagates. -/
def webpageSearch (crawl : String → CrawlOutcome) (query : String)
    (url : Option String) (urls : Option (List String)) :
    Except String (List SourceRecord) :=
  let url := if ¬ optTruthy url && ¬ optListTruthy urls && startsWithHttp query
    then some query else url
  if optTruthy url then do
    let r ← fetch_one crawl (url.getD "")
    pure [r]
  else if optListTruthy urls then
    ((urls.getD []).filter startsWithHttp).mapM (fetch_one crawl)
  else pure []

/-- Return shape of WebpageAgent.run (webpage_agent.py lines 66-80). -/
structure WebpageRunResult where
  agent : String
  sources : List SourceRecord
  result : String
deriving Repr, DecidableEq

/-- WebpageAgent.run (webpage_agent.py lines 49-80): raises ValueError
without a url/urls kwarg; fetch exceptions propagate out of search; an
empty source list yields the fixed no-content result, otherwise the
sources are synthesized with the deep-research synthesizer the agent
owns. -/
def webpageAgentRun (crawl : String → CrawlOutcome)
    (synthModel : String → Except String String) (user_question : String)
    (url : Option String) (urls : Option (List String)) :
    Except String WebpageRunResult :=
  if ¬ optTruthy url && ¬ optListTruthy urls then
    .error "WebpageAgent requires \x27url\x27 or \x27urls\x27 in kwargs."
  else do
    let sources ← webpageSearch crawl (url.getD "") url urls
    match sources with
    | [] =>
        pure { agent := "Webpage Agent", sources := [],
               result := "No webpage content could be fetched for the provided URL(s)." }
    | _ =>
        pure { agent := "Webpage Agent", sources := sources,
               result := (synthesizeDeep synthModel user_question sources).1 }

/-! ## BaseAgent construction -/

inductive ClientKind where
  | gemini
  | ollama
deriving Repr, DecidableEq

/-- listContainsSub pat l: pat occurs as a contiguous substring of l. -/
def listContainsSub (pat : List Char) : List Char → Bool
  | [] => listIsPrefixOfChars pat []
  | c :: cs => listIsPrefixOfChars pat (c :: cs) || listContainsSub pat cs

/-- The client dispatch of BaseAgent.__init__ (base_agent.py lines 16-21):
"gemini" in self.model.lower() selects the Gemini client, anything else
the Ollama client.  Constructing either external client object is modelled
as choosing the kind. -/
def clientKindOf (model : String) : ClientKind :=
  if listContainsSub "gemini".data (pyLower model).data then .gemini else .ollama

/-- The state a constructed BaseAgent carries. -/
structure AgentState where
  name : String
  model : String
  clientKind : ClientKind
deriving Repr, DecidableEq

/-- BaseAgent.__init__ (base_agent.py lines 13-24): choose and construct
the client from the model name, then unconditionally raise ValueError when
the GOOGLE_API_KEY environment variable is unset (os.getenv returning
None) or empty, regardless of which client was chosen. -/
def baseAgentInit (name model : String) (googleApiKey : Option String) :
    Except String AgentState :=
  let kind := clientKindOf model
  if (match googleApiKey with
      | none => true
      | some s => s = "") then
    .error "GOOGLE_API_KEY environment variable not set"
  else
    .ok { name := name, model := model, clientKind := kind }

/-! ## The /research handler's synthesis step (main_multiagent.py) -/

/-- The tail of the /research handler (main_multiagent.py lines 156-182):
with no per-collector results the fixed no-results message is returned;
otherwise the synthesizer is called and its return value is the answer.
The try/except of lines 173-180, whose except branch would return the raw
concatenated results, is not represented: synthesize catches the model
failure internally (synthesizer_agent.py line 72) and returns the error
string normally, so the except branch is unreachable for model failures. -/
def researchSynthesisStep (synthModel : String → Except String String)
    (question : String) (all_results : List String)
    (all_sources : List SourceRecord) : String :=
  match all_results with
  | [] => "No results found from any source. Please try a different question or check your parameters."
  | _ => (synthesize synthModel question all_sources).1

/-- combined_research = "\n\n".join(all_results) (main_multiagent.py line
159): the raw concatenated source list the spec expects as the best-effort
answer. -/
def combinedResearch (all_results : List String) : String :=
  joinWith "\n\n" all_results

/-! ## PlannerAgentDeepResearch.run -/

/-- Return shape of PlannerAgentDeepResearch.run (lines 185-190), extended
with the per-pass webpage-invocation flags and the aggregated sources that
the run hands to the synthesizer. -/
structure DeepRunResult where
  result : String
  strategy : Strategy
  sub_questions : List String
  all_sources : List SourceRecord
  webpageFlags : List Bool

/-- PlannerAgentDeepResearch.run (planner_agent_deep_research.py lines
146-190): decompose once, analyze the original question once, run one
execute_research_plan pass per sub-question with the shared strategy dict
threaded through, concatenate all sources in sub-question order, and
synthesize exactly once at the end.  max_sources is kwargs.get
('max_sources', 5), applied by the caller of this embedding. -/
def deepResearchRun (C : Collectors) (decomposeReply : DecomposeReply)
    (analyzeReply : Option String)
    (synthModel : String → Except String String) (user_question : String)
    (max_sources : Nat) (webpage_url : String)
    (date_from date_to : Option String) (transcript_limit : Nat) :
    DeepRunResult :=
  let sub_questions := decompose_question decomposeReply user_question
  let strategy := analyze_query analyzeReply webpage_url
  let out := deepLoop C max_sources webpage_url date_from date_to
    transcript_limit sub_questions 1 strategy
  { result := (synthesizeDeep synthModel user_question out.2.1).1
    strategy := out.1
    sub_questions := sub_questions
    all_sources := out.2.1
    webpageFlags := out.2.2 }

/-! ## Theorems for the claims -/

theorem normalizeStrategy_of_active (s : Strategy) (h : activeAgents s ≠ 0) :
    normalizeStrategy s = s := by
  simp [normalizeStrategy, h]

theorem effectiveActiveAgents_of_active (s : Strategy)
    (h : activeAgents s ≠ 0) : effectiveActiveAgents s = activeAgents s := by
  simp [effectiveActiveAgents, h]

theorem quota_sum_facts (ms k : Nat) (_hk : k ≠ 0) :
    (k ∣ ms → ms ≤ k * max 1 (ms / k)) ∧ (ms < k → ms ≤ k * max 1 (ms / k)) := by
  constructor
  · intro hdvd
    calc ms = k * (ms / k) := (Nat.mul_div_cancel' hdvd).symm
      _ ≤ k * max 1 (ms / k) := Nat.mul_le_mul_left _ (le_max_right _ _)
  · intro h
    have h1 : k * 1 ≤ k * max 1 (ms / k) := Nat.mul_le_mul_left _ (le_max_left _ _)
    omega

/-- C1 counterexample: with a budget of 5 and the paper and video
collectors enabled (an enabled set of size 2 and a budget of at least 1),
execute_research_plan hands both collectors the quota 2, so the quota sum
is 4 < 5; the remainder of 5 // 2 is dropped rather than given to the
first enabled collector. -/
theorem C1_counterexample :
    1 ≤ 5 ∧ activeAgents strategyPaperVideo ≠ 0 ∧
      perCollectorQuota 5 strategyPaperVideo = [2, 2] ∧
      ¬ 5 ≤ (perCollectorQuota 5 strategyPaperVideo).sum := by
  decide

/-- C1 (amended): for every budget maxSources ≥ 1 and non-empty enabled
set, every enabled collector receives the same quota
max(1, maxSources / activeCount) — the division remainder is dropped, not
given to the first collector — every quota is ≥ 1 unconditionally, there
is one quota per enabled collector, and the quota sum reaches the budget
exactly when activeCount divides the budget or the budget is below
activeCount. -/
theorem C1_amended (ms : Nat) (s : Strategy) (hms : 1 ≤ ms)
    (hact : activeAgents s ≠ 0) :
    (∀ q ∈ perCollectorQuota ms s, q = max 1 (ms / activeAgents s)) ∧
      (∀ q ∈ perCollectorQuota ms s, 1 ≤ q) ∧
      (perCollectorQuota ms s).length = activeAgents s ∧
      (activeAgents s ∣ ms → ms ≤ (perCollectorQuota ms s).sum) ∧
      (ms < activeAgents s → ms ≤ (perCollectorQuota ms s).sum) := by
  obtain ⟨a, y, w, c, r, re⟩ := s
  have hq := quota_sum_facts ms (activeAgents ⟨a, y, w, c, r, re⟩) hact
  cases a <;> cases y <;> cases w <;>
    simp_all [perCollectorQuota, normalizeStrategy, effectiveActiveAgents,
      sourcesPerAgent, activeAgents] <;>
    omega

/-- Witness for C1_amended at budget 5 with paper and video enabled. -/
theorem C1_amended_witness :
    (∀ q ∈ perCollectorQuota 5 strategyPaperVideo,
        q = max 1 (5 / activeAgents strategyPaperVideo)) ∧
      (∀ q ∈ perCollectorQuota 5 strategyPaperVideo, 1 ≤ q) ∧
      (perCollectorQuota 5 strategyPaperVideo).length =
        activeAgents strategyPaperVideo ∧
      (activeAgents strategyPaperVideo ∣ 5 →
        5 ≤ (perCollectorQuota 5 strategyPaperVideo).sum) ∧
      (5 < activeAgents strategyPaperVideo →
        5 ≤ (perCollectorQuota 5 strategyPaperVideo).sum) :=
  C1_amended 5 strategyPaperVideo (by decide) (by decide)

/-! ### C2: the webpage collector fires at most once in deep-research mode -/

theorem deepLoop_flags_false_of_two_le (C : Collectors) (ms : Nat)
    (url : String) (df dt : Option String) (tl : Nat) (qs : List String)
    (i : Nat) (s : Strategy) (hi : 2 ≤ i) :
    ∀ b ∈ (deepLoop C ms url df dt tl qs i s).2.2, b = false := by
  induction qs generalizing i s with
  | nil => simp [deepLoop]
  | cons q rest ih =>
      have hi1 : i ≠ 1 := by omega
      intro b hb
      simp only [deepLoop, hi1, if_false] at hb
      rcases List.mem_cons.mp hb with hb | hb
      · subst hb
        simp [execute_research_plan]
      · exact ih (i + 1) _ (by omega) b hb

theorem count_true_le_one_of_tail_false (l : List Bool)
    (h : ∀ b ∈ l.drop 1, b = false) : l.count true ≤ 1 := by
  cases l with
  | nil => simp
  | cons x xs =>
      have hxs : xs.count true = 0 := by
        rw [List.count_eq_zero]
        intro hmem
        exact absurd (h true (by simpa using hmem)) (by simp)
      cases x <;> simp [List.count_cons, hxs]

/-- C2: in deep-research mode, for every collector behaviour, every
decomposition outcome, every analysis outcome and every supplied webpage
URL, the webpage collector's run is invoked at most once across all
sub-question passes, and only the first sub-question's pass can invoke
it: every per-pass invocation flag after the first is false. -/
theorem C2_webpage_at_most_once (C : Collectors) (dr : DecomposeReply)
    (ar : Option String) (sm : String → Except String String) (q : String)
    (ms : Nat) (url : String) (df dt : Option String) (tl : Nat) :
    (∀ b ∈ (deepResearchRun C dr ar sm q ms url df dt tl).webpageFlags.drop 1,
        b = false) ∧
      (deepResearchRun C dr ar sm q ms url df dt tl).webpageFlags.count true ≤ 1 := by
  have key : ∀ b ∈ (deepResearchRun C dr ar sm q ms url df dt tl).webpageFlags.drop 1,
      b = false := by
    show ∀ b ∈ ((deepLoop C ms url df dt tl (decompose_question dr q) 1
        (analyze_query ar url)).2.2.drop 1), b = false
    cases hqs : decompose_question dr q with
    | nil => simp [deepLoop]
    | cons q0 rest =>
        intro b hb
        simp only [deepLoop, List.drop_succ_cons, List.drop_zero] at hb
        exact deepLoop_flags_false_of_two_le C ms url df dt tl rest 2 _
          (le_refl 2) b hb
  exact ⟨key, count_true_le_one_of_tail_false _ key⟩

/-! ### C3: strategy reuse across passes -/

/-- Collectors that always return nothing, used for concrete evaluation. -/
def noCollectors : Collectors :=
  { arxivRun := fun _ _ _ _ => []
    youtubeRun := fun _ _ _ => []
    webpageRun := fun _ _ => [] }

/-- The all-collectors-off strategy that analyze_query produces from a
no/no/no model reply with no webpage URL. -/
def strategyAllOff : Strategy :=
  { use_arxiv := false, use_youtube := false, use_webpage := false,
    complexity := "medium", recency := "medium", reasoning := "x" }

/-- C3 counterexample: the all-off strategy is reachable from analyze_query,
and the first execute_research_plan call on it mutates the shared strategy
dict (use_arxiv and use_youtube are flipped to true), so later passes do
not observe the strategy unmodified. -/
theorem C3_counterexample :
    analyze_query
        (some "ArXiv: no\nYouTube: no\nWebpage: no\nComplexity: medium\nRecency: medium\nReasoning: x")
        "" = strategyAllOff ∧
      strategyAllOff.use_arxiv = false ∧
      (execute_research_plan noCollectors "q" strategyAllOff 5 "" none none
          none 3000).strategy.use_arxiv = true ∧
      (deepLoop noCollectors 5 "" none none 3000 ["q1", "q2"] 1
          strategyAllOff).1 ≠ strategyAllOff := by
  decide

/-- C3 (amended): the strategy is computed once, and whenever at least one
collector is enabled in it, no execute_research_plan call changes any of
its fields and every sub-question pass observes the identical strategy
value; only the degenerate all-collectors-off strategy is mutated (by the
first pass, which flips use_arxiv and use_youtube to true). -/
theorem C3_amended (C : Collectors) (s : Strategy)
    (hact : activeAgents s ≠ 0) (q : String) (ms : Nat) (url : String)
    (fsq : Option String) (df dt : Option String) (tl : Nat) :
    (execute_research_plan C q s ms url fsq df dt tl).strategy = s ∧
      ∀ qs i, (deepLoop C ms url df dt tl qs i s).1 = s := by
  constructor
  · simp [execute_research_plan, normalizeStrategy_of_active s hact]
  · intro qs
    induction qs with
    | nil => intro i; simp [deepLoop]
    | cons q0 rest ih =>
        intro i
        simp [deepLoop, execute_research_plan,
          normalizeStrategy_of_active s hact, ih]

/-- Witness for C3_amended: with paper and video enabled, a two-pass run
finishes with the strategy it started from. -/
theorem C3_amended_witness :
    (execute_research_plan noCollectors "q" strategyPaperVideo 5 "" none none
        none 3000).strategy = strategyPaperVideo ∧
      (deepLoop noCollectors 5 "" none none 3000 ["q1", "q2"] 1
          strategyPaperVideo).1 = strategyPaperVideo := by
  have h := C3_amended noCollectors strategyPaperVideo (by decide) "q" 5 ""
    none none none 3000
  exact ⟨h.1, h.2 ["q1", "q2"] 1⟩

/-! ### C4: the rendered source list -/

/-- A record the synthesize loop renders: arxiv or youtube. -/
def isListed (s : SourceRecord) : Bool :=
  s.source_type == some "arxiv" || s.source_type == some "youtube"

theorem renderListed_isSome (i : Nat) (s : SourceRecord) :
    (renderListed i s).isSome = isListed s := by
  by_cases h1 : s.source_type = some "arxiv" <;>
    by_cases h2 : s.source_type = some "youtube" <;>
      simp [renderListed, isListed, h1, h2]

theorem sourceItems_eq_enumFrom (srcs : List SourceRecord) (i : Nat) :
    sourceItems i srcs =
      (List.enumFrom i srcs).filterMap (fun p => renderListed p.1 p.2) := by
  induction srcs generalizing i with
  | nil => simp [sourceItems]
  | cons s rest ih =>
      cases h : renderListed i s <;>
        simp [sourceItems, List.enumFrom, h, ih (i + 1)]

theorem sourceItems_length (srcs : List SourceRecord) (i : Nat) :
    (sourceItems i srcs).length = (srcs.filter isListed).length := by
  induction srcs generalizing i with
  | nil => simp [sourceItems]
  | cons s rest ih =>
      have hs := renderListed_isSome i s
      cases h : renderListed i s <;> rw [h] at hs <;>
        simp [sourceItems, h, List.filter_cons, ← hs, ih (i + 1)]

/-- A concrete webpage record as WebpageAgent produces it. -/
def webpageRecordSample : SourceRecord :=
  { source_type := some "webpage", title := some "Page",
    content := some "body", link := some "http://x" }

/-- A concrete arxiv record as ArxivAgent produces it. -/
def arxivRecordSample : SourceRecord :=
  { source_type := some "arxiv", title := some "T", summary := some "S",
    link := some "http://a" }

/-- C4 counterexample: a single webpage record is a non-empty input of
N = 1 records, yet the source list synthesize appends has zero entries —
the loop renders only arxiv and youtube records, so the report ends with
an empty ol element instead of one entry with id source-1. -/
theorem C4_counterexample :
    [webpageRecordSample].length = 1 ∧
      (sourceItems 1 [webpageRecordSample]).length = 0 ∧
      (synthesize (fun _ => .ok "REPORT") "q" [webpageRecordSample]).1 =
        "REPORT\n\n## Sources\n<ol></ol>" := by
  decide

/-- C4 (amended): for every non-empty input sequence, the report returned
by synthesize (flat and deep-research variants alike) is the model reply
followed by a source list rendered from the input sequence itself — the
model reply cannot influence the list — whose entries are exactly one per
arxiv or youtube record, in input order, each carrying id source-i for its
1-based input position i; records of any other source type (webpage)
contribute no entry while still consuming their position. -/
theorem C4_amended (t q : String) (srcs : List SourceRecord)
    (h : srcs ≠ []) :
    (synthesize (fun _ => .ok t) q srcs).1 =
        pyStrip t ++ sourceListHtml flatSourcesHeader srcs ∧
      (synthesizeDeep (fun _ => .ok t) q srcs).1 =
        pyStrip t ++ sourceListHtml deepSourcesHeader srcs ∧
      (∀ header, sourceListHtml header srcs =
        header ++ String.join (((List.enumFrom 1 srcs).filterMap
          (fun p => renderListed p.1 p.2)).map Prod.snd) ++ "</ol>") ∧
      (sourceItems 1 srcs).length = (srcs.filter isListed).length := by
  match srcs with
  | s :: rest =>
      refine ⟨rfl, rfl, ?_, sourceItems_length _ 1⟩
      intro header
      rw [sourceListHtml, sourceItems_eq_enumFrom]

/-- Witness for C4_amended on one arxiv record. -/
theorem C4_amended_witness :
    (synthesize (fun _ => .ok "R") "q" [arxivRecordSample]).1 =
        pyStrip "R" ++ sourceListHtml flatSourcesHeader [arxivRecordSample] ∧
      (synthesizeDeep (fun _ => .ok "R") "q" [arxivRecordSample]).1 =
        pyStrip "R" ++ sourceListHtml deepSourcesHeader [arxivRecordSample] ∧
      (∀ header, sourceListHtml header [arxivRecordSample] =
        header ++ String.join (((List.enumFrom 1 [arxivRecordSample]).filterMap
          (fun p => renderListed p.1 p.2)).map Prod.snd) ++ "</ol>") ∧
      (sourceItems 1 [arxivRecordSample]).length =
        ([arxivRecordSample].filter isListed).length :=
  C4_amended "R" "q" [arxivRecordSample] (by decide)

/-! ### C5: decomposition output -/

/-- C5 counterexample: a successfully parsed model reply whose
sub_questions list is empty is returned as-is, so decompose_question
returns a list of length 0, outside the claimed range [1, 5]. -/
theorem C5_counterexample :
    decompose_question (.jsonObj (some [])) "Q" = [] ∧
      (decompose_question (.jsonObj (some [])) "Q").length = 0 := by
  decide

/-- C5 (amended): whenever the model call, the brace search, the JSON
decode, or the key lookup fails, decompose_question returns exactly the
one-element list with the original question; when the parse succeeds with
the key present, the parsed list is returned unmodified, with no bound
enforced on its length (it may be 0 or exceed 5). -/
theorem C5_amended (q : String) (l : List String) :
    decompose_question .modelError q = [q] ∧
      decompose_question .noJsonBraces q = [q] ∧
      decompose_question .jsonError q = [q] ∧
      decompose_question (.jsonObj none) q = [q] ∧
      decompose_question (.jsonObj (some l)) q = l :=
  ⟨rfl, rfl, rfl, rfl, rfl⟩

/-! ### C6: collector behaviour on unreachable or empty upstream -/

/-- A crawl whose upstream yields nothing readable. -/
def crawlNoContent : String → CrawlOutcome := fun _ => .fetched none none

/-- A crawl whose upstream is unreachable and raises. -/
def crawlRaising : String → CrawlOutcome := fun _ => .raised "connection refused"

/-- A synthesis model that fails; the webpage agent still embeds its error
string into the run result. -/
def synthFailing : String → Except String String := fun _ => .error "model down"

/-- The placeholder record _fetch_one builds when the crawl result has no
readable content. -/
def placeholderRecord : SourceRecord :=
  { source_type := some "webpage", title := some "http://x",
    content := some "No readable content extracted from: http://x",
    link := some "http://x" }

/-- C6 counterexample: when the webpage upstream returns nothing readable,
WebpageAgent.run does not return an empty source sequence — it returns one
placeholder webpage record — and when the crawl raises, the exception
propagates out of run instead of being converted to an empty result. -/
theorem C6_counterexample :
    webpageAgentRun crawlNoContent synthFailing "q" (some "http://x") none =
        .ok { agent := "Webpage Agent", sources := [placeholderRecord],
              result := "Error during synthesis: model down" } ∧
      webpageAgentRun crawlRaising synthFailing "q" (some "http://x") none =
        .error "connection refused" :=
  ⟨rfl, rfl⟩

/-- C6 (amended): the paper and video collectors return an empty source
sequence and never raise when the upstream is unreachable or empty (their
search bodies catch every exception and their embeddings are total
functions); the webpage collector does not satisfy the claim: an
unreadable page yields one placeholder record rather than an empty
sequence, a crawl exception other than the caught event-loop RuntimeError
propagates out of run, and a call without a URL raises ValueError. -/
theorem C6_amended (qr : Option String) (uq : String)
    (ts : String → Option (List String)) (tl : Nat) (e : String)
    (sm : String → Except String String) :
    (arxivAgentRun qr uq .unreachable).sources = [] ∧
      (arxivAgentRun qr uq .xmlDecodeError).sources = [] ∧
      (arxivAgentRun qr uq (.entries [])).sources = [] ∧
      (youtubeAgentRun qr uq .unreachable ts tl).sources = [] ∧
      (youtubeAgentRun qr uq (.items []) ts tl).sources = [] ∧
      webpageAgentRun (fun _ => .fetched none none) sm uq (some "http://x")
          none =
        .ok { agent := "Webpage Agent", sources := [placeholderRecord],
              result := (synthesizeDeep sm uq [placeholderRecord]).1 } ∧
      webpageAgentRun (fun _ => .raised e) sm uq (some "http://x") none =
        .error e ∧
      webpageAgentRun (fun _ => .fetched none none) sm uq none none =
        .error "WebpageAgent requires \x27url\x27 or \x27urls\x27 in kwargs." :=
  ⟨rfl, rfl, rfl, rfl, rfl, rfl, rfl, rfl⟩

/-! ### C7: the raw-results fallback on synthesis failure -/

/-- C7, evaluating the code at the failing input: with one collected arxiv
source and a synthesis model call that raises "boom", the /research
handler's answer is the opaque string "Error during synthesis: boom", not
the raw concatenated research results: synthesize catches the model
failure internally and returns the error string, so the handler's
except-branch fallback to combined_research can never run for a model
failure. -/
theorem C7_code_bug_eval :
    researchSynthesisStep (fun _ => .error "boom") "q"
        ["**ArXiv Research:** r"] [arxivRecordSample] =
      "Error during synthesis: boom" ∧
      combinedResearch ["**ArXiv Research:** r"] = "**ArXiv Research:** r" ∧
      "Error during synthesis: boom" ≠ "**ArXiv Research:** r" := by
  decide

/-! ### C8: default strategy on analysis failure -/

theorem getKV_of_absent (kvs : List (String × String)) (k d : String)
    (h : ∀ p ∈ kvs, p.1 ≠ k) : getKV kvs k d = d := by
  have hfind : kvs.reverse.find? (fun p => p.1 == k) = none := by
    rw [List.find?_eq_none]
    intro p hp
    simpa using h p (List.mem_reverse.mp hp)
  simp [getKV, hfind]

/-- C8: analyze_query never propagates a model failure (its embedding is a
total function over every reply outcome); a raised model call yields the
default strategy with use_arxiv = use_youtube = true and complexity =
recency = "medium", and a malformed reply — one whose parsed key/value
lines contain none of the recognized keys — yields those same four default
values. -/
theorem C8_default_strategy (url t : String)
    (h : ∀ p ∈ parseAnalysisLines (pyStrip t),
        p.1 ≠ "arxiv" ∧ p.1 ≠ "youtube" ∧ p.1 ≠ "complexity" ∧
          p.1 ≠ "recency") :
    analyze_query none url =
        { use_arxiv := true, use_youtube := true,
          use_webpage := url != "", complexity := "medium",
          recency := "medium",
          reasoning := "Default comprehensive research approach" } ∧
      (analyze_query (some t) url).use_arxiv = true ∧
      (analyze_query (some t) url).use_youtube = true ∧
      (analyze_query (some t) url).complexity = "medium" ∧
      (analyze_query (some t) url).recency = "medium" := by
  refine ⟨rfl, ?_, ?_, ?_, ?_⟩ <;>
    simp [analyze_query,
      getKV_of_absent _ "arxiv" _ (fun p hp => (h p hp).1),
      getKV_of_absent _ "youtube" _ (fun p hp => (h p hp).2.1),
      getKV_of_absent _ "complexity" _ (fun p hp => (h p hp).2.2.1),
      getKV_of_absent _ "recency" _ (fun p hp => (h p hp).2.2.2)]

/-- Witness for C8_default_strategy on a reply with no recognized keys. -/
theorem C8_default_strategy_witness :
    (∀ p ∈ parseAnalysisLines (pyStrip "no recognized keys here"),
        p.1 ≠ "arxiv" ∧ p.1 ≠ "youtube" ∧ p.1 ≠ "complexity" ∧
          p.1 ≠ "recency") ∧
      (analyze_query none "" =
          { use_arxiv := true, use_youtube := true, use_webpage := ("" != ""),
            complexity := "medium", recency := "medium",
            reasoning := "Default comprehensive research approach" } ∧
        (analyze_query (some "no recognized keys here") "").use_arxiv = true ∧
        (analyze_query (some "no recognized keys here") "").use_youtube = true ∧
        (analyze_query (some "no recognized keys here") "").complexity =
          "medium" ∧
        (analyze_query (some "no recognized keys here") "").recency =
          "medium") :=
  ⟨by decide, C8_default_strategy "" "no recognized keys here" (by decide)⟩

/-! ### C9: empty input short-circuits synthesis -/

/-- C9: for every question and every model behaviour, synthesize (flat and
deep-research variants) on the empty source sequence returns the fixed
no-sources message and performs zero language-model calls. -/
theorem C9_empty_sources (m : String → Except String String) (q : String) :
    synthesize m q [] =
        ("No relevant sources were found to answer your question.", 0) ∧
      synthesizeDeep m q [] =
        ("No relevant sources were found to answer your question.", 0) :=
  ⟨rfl, rfl⟩

/-! ### C10: agent construction requires the API key -/

/-- C10: BaseAgent.__init__ raises ValueError("GOOGLE_API_KEY environment
variable not set") whenever the key is unset (or empty), for every model
name — including the non-Gemini default "gemma3:4b", whose Ollama client
never uses the key — and a constructed agent exists exactly when the key
is present and non-empty. -/
theorem C10_requires_key (name model : String) (k : Option String) :
    baseAgentInit name model none =
        .error "GOOGLE_API_KEY environment variable not set" ∧
      baseAgentInit name model (some "") =
        .error "GOOGLE_API_KEY environment variable not set" ∧
      clientKindOf "gemma3:4b" = .ollama ∧
      (baseAgentInit name "gemma3:4b" none =
        .error "GOOGLE_API_KEY environment variable not set") ∧
      (baseAgentInit name model k).isOk =
        (match k with
         | none => false
         | some s => s != "") := by
  refine ⟨rfl, rfl, by decide, rfl, ?_⟩
  match k with
  | none => rfl
  | some s =>
      by_cases hs : s = "" <;>
        simp [baseAgentInit, hs, Except.isOk, Except.toBool, bne]

end ResearchAgent
